import Mathlib

/-!
Shallow embedding of `src/log.hpp` (header-only console logging facility).

Modelling conventions:
* `log_level_t` mirrors the C++ enum; `log_level_ord` is the underlying
  integer value of each enumerator (error = 0, ..., debug = 3), the value
  used by the `static_cast<int>` comparisons in `log_impl`.
* The process environment is a total map `Env : String → Option String`;
  `some v` models a variable that is present with value `v` (possibly the
  empty string), `none` models an absent variable, matching `getenv`.
* Global mutable state (`g_current_level`, `g_local_epooch`, and the
  function-local `static bool log_level_read` guard) is a `LogState`
  record threaded explicitly through `log_impl`.
* `fmt` formatting of the user template is external to this header; the
  embedding of `log_impl` receives the already-rendered message string.
  Styling (colors) never changes the emitted characters, so the output is
  modelled as the plain text written to stderr.
* Fallible operations return `Option`: `std::string_view::remove_prefix`
  with a count above the view size is undefined behaviour, and so is the
  conversion of a double to `unsigned` when the truncated value is not
  representable ([conv.fpint]); both are modelled as the `none` branch.
-/

namespace LogHpp

/-- The `log_level_t` enum of log.hpp, in declaration order. -/
inductive log_level_t : Type where
  | error : log_level_t
  | warning : log_level_t
  | info : log_level_t
  | debug : log_level_t
  deriving DecidableEq, Repr

/-- Underlying integer value of each enumerator (the value produced by
`static_cast<int>` in the gate comparison of `log_impl`). -/
def log_level_ord : log_level_t → Nat
  | .error => 0
  | .warning => 1
  | .info => 2
  | .debug => 3

/-- The three-letter severity tag computed by the `lvl_s` lambda in
`log_impl`.  The C++ lambda also has a `default: return "UNK"` branch,
unreachable for the closed four-valued enum, so the Lean match is total. -/
def lvl_s : log_level_t → String
  | .debug => "DBG"
  | .info => "INF"
  | .warning => "WRN"
  | .error => "ERR"

/-- Process environment: `some v` means the variable is present with value
`v` (possibly empty), `none` means absent, as reported by `getenv`. -/
def Env : Type := String → Option String

/-- Global state of the logging facility: the extern globals
`g_current_level` and `g_local_epooch` (the epoch in abstract clock units),
plus the function-local `static bool log_level_read` guard of `log_impl`. -/
structure LogState : Type where
  g_current_level : log_level_t
  g_local_epooch : Nat
  log_level_read : Bool
  deriving DecidableEq, Repr

/-- Loop of `strip_fpath`: scans the characters left to right, starting
from `last_slash_pos = 0`, recording the index of every slash found. -/
def last_slash_pos_aux : List Char → Nat → Nat → Nat
  | [], _, acc => acc
  | c :: rest, i, acc => last_slash_pos_aux rest (i + 1) (if c = '/' then i else acc)

/-- The `strip_fpath` function of log.hpp: find the position of the last
slash (0 when there is none) and `remove_prefix(last_slash_pos + 1)`.
`remove_prefix` requires the count to be at most the view's size; removing
more is undefined behaviour, modelled as `none`. -/
def strip_fpath (s : String) : Option String :=
  let p := last_slash_pos_aux s.data 0 0
  if p + 1 ≤ s.data.length then some (String.mk (s.data.drop (p + 1))) else none

/-- The `rgb_color` struct of log.hpp. -/
structure rgb_color : Type where
  r : Nat
  g : Nat
  b : Nat
  deriving DecidableEq, Repr

/-- `to_rgb`: extract the three 8-bit channels from the 24-bit color value. -/
def to_rgb (c : Nat) : rgb_color :=
  ⟨(c.land 0xFF0000) >>> 16, (c.land 0xFF00) >>> 8, c.land 0xFF⟩

/-- `from_rgb`: pack three channels back into a 24-bit color value. -/
def from_rgb (c : rgb_color) : Nat :=
  (c.r <<< 16) ||| (c.g <<< 8) ||| c.b

/-- Truncation toward zero of a rational, the rounding used when a C++
double is converted to an integer type. -/
def truncQ (q : ℚ) : ℤ :=
  if 0 ≤ q.num then ((q.num.toNat / q.den : Nat) : ℤ)
  else -(((-q.num).toNat / q.den : Nat) : ℤ)

/-- Conversion of a truncated double value to `unsigned` (32-bit).  By
[conv.fpint] the behaviour is undefined when the truncated value cannot be
represented in the destination type, i.e. when it is negative or at least
`2 ^ 32`; that error branch is `none`. -/
def castToUnsigned (x : ℤ) : Option Nat :=
  if 0 ≤ x ∧ x < 2 ^ 32 then some x.toNat else none

/-- One channel of `lighter`:
`std::clamp(r + static_cast<unsigned>(r * percents), 0u, 255u)`.
The multiplication `r * percents` is exact for the values this header uses
(channels 0..255 and percents = -0.5), so it is modelled as exact rational
arithmetic.  The `int + unsigned` addition happens in `unsigned`, i.e.
modulo `2 ^ 32`, and the clamp against `0u`/`255u` reduces to `min · 255`
on naturals. -/
def lighter_channel (c : Nat) (percents : ℚ) : Option Nat :=
  match castToUnsigned (truncQ ((c : ℚ) * percents)) with
  | none => none
  | some u => some (min ((c + u) % 2 ^ 32) 255)

/-- The `lighter` helper of log.hpp, channel by channel.  Its (commented
out) precondition is `percents >= 0.0 && percents <= 1.0`; the header
nevertheless calls it with `-0.5` to build the darker styles. -/
def lighter (c : Nat) (percents : ℚ) : Option Nat :=
  match lighter_channel (to_rgb c).r percents,
        lighter_channel (to_rgb c).g percents,
        lighter_channel (to_rgb c).b percents with
  | some r, some g, some b => some (from_rgb ⟨r, g, b⟩)
  | _, _, _ => none

/-- The environment inspection block of `log_impl`: if `LOG` is present its
value is compared against the four recognized literals (an unrecognized
value leaves the level unchanged); only when `LOG` is absent is `DEBUG`
consulted, and mere presence (any value, even empty) forces `debug`. -/
def readLogLevel (env : Env) (cur : log_level_t) : log_level_t :=
  match env "LOG" with
  | some v =>
    if v = "debug" then .debug
    else if v = "info" then .info
    else if v = "warning" then .warning
    else if v = "error" then .error
    else cur
  | none =>
    match env "DEBUG" with
    | some _ => .debug
    | none => cur

/-- State after the one-time initialization block at the top of `log_impl`:
when the guard is already set nothing happens; otherwise the level is
resolved from the environment and the guard is set. -/
def resolveState (env : Env) (s : LogState) : LogState :=
  if s.log_level_read then s
  else ⟨readLogLevel env s.g_current_level, s.g_local_epooch, true⟩

/-- Left-justified minimum-width-4 rendering of the millisecond counter,
fmt's `:<4` with the default space fill. -/
def padRight4 (s : String) : String :=
  s ++ String.mk (List.replicate (4 - s.length) ' ')

/-- Concatenation of the four stderr writes of the emit path of
`log_impl`: the header print, the rendered user message, the source
location suffix, and the final newline. -/
def formatLine (ms : Nat) (level : log_level_t) (module_name msg base : String)
    (line : Int) : String :=
  padRight4 (toString ms) ++ ": " ++ lvl_s level ++ "  " ++ module_name ++ "  "
    ++ msg ++ " (" ++ base ++ ":" ++ toString line ++ ") " ++ "\n"

/-- The body of `log_impl`.  Inputs: the environment, the call severity,
the `__LINE__` / `__FILE__` / module-name context, the already-rendered
message, the current clock reading `now` (so `curr_ms = now - epoch`), and
the global state.  Output: the new global state paired with the characters
written to stderr (empty when gated), or `none` when the emit path hits
the undefined `remove_prefix` inside `strip_fpath`.  Note the
initialization block runs before the gate, and `strip_fpath` is evaluated
only on the emit path. -/
def log_impl (env : Env) (level : log_level_t) (line : Int)
    (file_name module_name msg : String) (now : Nat) (s : LogState) :
    Option (LogState × String) :=
  let s1 := resolveState env s
  if log_level_ord level > log_level_ord s1.g_current_level then some (s1, "")
  else
    match strip_fpath file_name with
    | none => none
    | some base =>
      some (s1, formatLine (now - s1.g_local_epooch) level module_name msg base line)

/-- `log_empty_line`: writes a bare newline to stderr, touching nothing. -/
def log_empty_line (s : LogState) : LogState × String := (s, "\n")

/-- Decider for the spec's regex
`^\d+: INF  net  connected to host1 \(server\.cpp:42\) $` followed by a
newline: a nonempty run of digits, then exactly the literal remainder.
(Any regex match must end its `\d+` at the full leading digit run, since
the next pattern character `:` is not a digit.) -/
def matchesSpecRegex (s : String) : Bool :=
  let cs := s.data
  (!(cs.takeWhile (fun c => c.isDigit)).isEmpty)
    && (cs.dropWhile (fun c => c.isDigit)
          == (": INF  net  connected to host1 (server.cpp:42) \n").data)

/-- An empty environment: no variables present. -/
def env0 : Env := fun _ => none

/-- Environment with `LOG=garbage` and `DEBUG=1`. -/
def envGarbageDebug : Env := fun k =>
  if k = "LOG" then some "garbage" else if k = "DEBUG" then some "1" else none

/-- Environment with `LOG=error` only. -/
def envLogError : Env := fun k => if k = "LOG" then some "error" else none

/-- Environment with `DEBUG` present but set to the empty string. -/
def envDebugEmpty : Env := fun k => if k = "DEBUG" then some "" else none


/-! ## Helper lemmas -/

lemma formatLine_ne_empty (ms : Nat) (level : log_level_t) (module_name msg base : String)
    (line : Int) : formatLine ms level module_name msg base line ≠ "" := by
  intro h
  have h2 := congrArg String.length h
  simp [formatLine, String.length_append] at h2
  exact absurd h2.2 (by decide)

lemma truncQ_200 : truncQ ((200 : ℚ) * (-1/2 : ℚ)) = -100 := by norm_num [truncQ]

lemma truncQ_128 : truncQ ((128 : ℚ) * (-1/2 : ℚ)) = -64 := by norm_num [truncQ]

lemma resolveState_read {env : Env} {s : LogState} (h : s.log_level_read = true) :
    resolveState env s = s := by
  simp [resolveState, h]

lemma resolveState_read_flag (env : Env) (s : LogState) :
    (resolveState env s).log_level_read = true := by
  unfold resolveState
  split
  · assumption
  · rfl

lemma resolveState_epoch (env : Env) (s : LogState) :
    (resolveState env s).g_local_epooch = s.g_local_epooch := by
  unfold resolveState
  split <;> rfl

lemma log_impl_suppress (env : Env) (level : log_level_t) (line : Int)
    (file module_name msg : String) (now : Nat) (s : LogState)
    (h : log_level_ord (resolveState env s).g_current_level < log_level_ord level) :
    log_impl env level line file module_name msg now s = some (resolveState env s, "") := by
  simp [log_impl, h]

lemma log_impl_emit (env : Env) (level T : log_level_t) (line : Int)
    (file module_name msg : String) (now ep : Nat) (base : String)
    (hstrip : strip_fpath file = some base)
    (hord : log_level_ord level ≤ log_level_ord T) :
    log_impl env level line file module_name msg now ⟨T, ep, true⟩
      = some (⟨T, ep, true⟩, formatLine (now - ep) level module_name msg base line) := by
  have hres : resolveState env ⟨T, ep, true⟩ = ⟨T, ep, true⟩ := resolveState_read rfl
  simp [log_impl, hres, Nat.not_lt.mpr hord, hstrip]

lemma log_impl_state_eq {env : Env} {level : log_level_t} {line : Int}
    {file module_name msg : String} {now : Nat} {s s' : LogState} {out : String}
    (h : log_impl env level line file module_name msg now s = some (s', out)) :
    s' = resolveState env s := by
  simp only [log_impl] at h
  split at h
  · injection h with h'
    exact (congrArg Prod.fst h').symm
  · split at h
    · exact absurd h (by simp)
    · injection h with h'
      exact (congrArg Prod.fst h').symm

/-! ## Claim theorems -/

/-- C1: the spec claims `strip_fpath` leaves slash-free inputs unchanged, with
`strip_fpath "c" = "c"` and `strip_fpath "" = ""`; the code instead always
executes `remove_prefix(last_slash_pos + 1)` with `last_slash_pos = 0` when no
slash was found, dropping the first character of any slash-free nonempty input
and overrunning the empty one.  Evaluation at the spec's own examples. -/
theorem strip_fpath_eval_at_spec_examples :
    strip_fpath "a/b/c" = some "c" ∧ strip_fpath "c" = some "" ∧ strip_fpath "" = none := by
  refine ⟨by decide, by decide, by decide⟩

/-- C2 counterexample: with `LOG=garbage` (unrecognized) and `DEBUG=1`
(non-empty), the resolution keeps the compiled-in default instead of the
debug the claim demands, because `getenv("DEBUG")` sits in the `else` of
the `getenv("LOG")` test. -/
theorem unrecognized_log_blocks_debug_fallback_cex :
    envGarbageDebug "LOG" = some "garbage" ∧ envGarbageDebug "DEBUG" = some "1"
      ∧ readLogLevel envGarbageDebug .warning = .warning
      ∧ readLogLevel envGarbageDebug .warning ≠ .debug := by
  refine ⟨by decide, by decide, by decide, by decide⟩

/-- C2 amended: full characterization of the threshold resolution.  A
recognized `LOG` value sets the threshold; an unrecognized `LOG` value keeps
the default and also blocks the `DEBUG` fallback; `DEBUG` is consulted only
when `LOG` is absent, and then its mere presence forces debug. -/
theorem readLogLevel_characterization :
    ∀ (env : Env) (cur : log_level_t),
      (env "LOG" = some "debug" → readLogLevel env cur = .debug)
      ∧ (env "LOG" = some "info" → readLogLevel env cur = .info)
      ∧ (env "LOG" = some "warning" → readLogLevel env cur = .warning)
      ∧ (env "LOG" = some "error" → readLogLevel env cur = .error)
      ∧ (∀ v, env "LOG" = some v → v ≠ "debug" → v ≠ "info" → v ≠ "warning" →
          v ≠ "error" → readLogLevel env cur = cur)
      ∧ (env "LOG" = none → ∀ v, env "DEBUG" = some v → readLogLevel env cur = .debug)
      ∧ (env "LOG" = none → env "DEBUG" = none → readLogLevel env cur = cur) := by
  intro env cur
  refine ⟨?_, ?_, ?_, ?_, ?_, ?_, ?_⟩
  · intro h; simp [readLogLevel, h]
  · intro h; simp [readLogLevel, h]
  · intro h; simp [readLogLevel, h]
  · intro h; simp [readLogLevel, h]
  · intro v h h1 h2 h3 h4; simp [readLogLevel, h, h1, h2, h3, h4]
  · intro h v hd; simp [readLogLevel, h, hd]
  · intro h hd; simp [readLogLevel, h, hd]

/-- Witness for the C2 amended characterization: `LOG=garbage` with
`DEBUG=1` keeps the default threshold. -/
theorem readLogLevel_characterization_witness :
    readLogLevel envGarbageDebug .warning = .warning :=
  (readLogLevel_characterization envGarbageDebug .warning).2.2.2.2.1 "garbage"
    (by decide) (by decide) (by decide) (by decide) (by decide)

/-- C3: with the threshold cached at `T`, a call of severity `level` emits a
nonempty line iff `log_level_ord level ≤ log_level_ord T` (error = 0 is the
lowest ordinal); consequently at threshold debug every severity emits and at
threshold error only the error severity emits. -/
theorem emission_iff_ordinal_le :
    ∀ (env : Env) (level T : log_level_t) (line : Int) (file module_name msg : String)
      (now ep : Nat) (base : String), strip_fpath file = some base →
      (∃ out, log_impl env level line file module_name msg now ⟨T, ep, true⟩
          = some (⟨T, ep, true⟩, out)
          ∧ (out ≠ "" ↔ log_level_ord level ≤ log_level_ord T))
      ∧ (∃ out, log_impl env level line file module_name msg now ⟨.debug, ep, true⟩
          = some (⟨.debug, ep, true⟩, out) ∧ out ≠ "")
      ∧ (∃ out, log_impl env level line file module_name msg now ⟨.error, ep, true⟩
          = some (⟨.error, ep, true⟩, out) ∧ (out ≠ "" ↔ level = .error)) := by
  intro env level T line file module_name msg now ep base hstrip
  have main : ∀ T' : log_level_t, ∃ out,
      log_impl env level line file module_name msg now ⟨T', ep, true⟩
        = some (⟨T', ep, true⟩, out)
        ∧ (out ≠ "" ↔ log_level_ord level ≤ log_level_ord T') := by
    intro T'
    by_cases h : log_level_ord T' < log_level_ord level
    · refine ⟨"", ?_, ?_⟩
      · have hres : resolveState env ⟨T', ep, true⟩ = ⟨T', ep, true⟩ := resolveState_read rfl
        have hsup := log_impl_suppress env level line file module_name msg now
          ⟨T', ep, true⟩ (by rw [hres]; exact h)
        rwa [hres] at hsup
      · simp only [ne_eq, not_true_eq_false, false_iff]
        omega
    · exact ⟨formatLine (now - ep) level module_name msg base line,
        log_impl_emit env level T' line file module_name msg now ep base hstrip (Nat.not_lt.mp h),
        ⟨fun _ => Nat.not_lt.mp h, fun _ => formatLine_ne_empty _ _ _ _ _ _⟩⟩
  refine ⟨main T, ?_, ?_⟩
  · obtain ⟨out, he, hiff⟩ := main .debug
    exact ⟨out, he, hiff.mpr (by cases level <;> simp [log_level_ord])⟩
  · obtain ⟨out, he, hiff⟩ := main .error
    refine ⟨out, he, hiff.trans ?_⟩
    cases level <;> simp [log_level_ord]

/-- Witness for C3 at a concrete call. -/
theorem emission_iff_ordinal_le_witness :
    strip_fpath "a/b/c" = some "c"
    ∧ ((∃ out, log_impl env0 .info 7 "a/b/c" "mod" "hello" 10 ⟨.warning, 2, true⟩
          = some (⟨.warning, 2, true⟩, out)
          ∧ (out ≠ "" ↔ log_level_ord .info ≤ log_level_ord .warning))
       ∧ (∃ out, log_impl env0 .info 7 "a/b/c" "mod" "hello" 10 ⟨.debug, 2, true⟩
          = some (⟨.debug, 2, true⟩, out) ∧ out ≠ "")
       ∧ (∃ out, log_impl env0 .info 7 "a/b/c" "mod" "hello" 10 ⟨.error, 2, true⟩
          = some (⟨.error, 2, true⟩, out) ∧ (out ≠ "" ↔ log_level_t.info = .error))) :=
  ⟨by decide,
    emission_iff_ordinal_le env0 .info .warning 7 "a/b/c" "mod" "hello" 10 2 "c" (by decide)⟩

/-- C4: the spec claims the darkening transform maps channel 200 at
percents = -0.5 to 100.  The code computes
`static_cast<unsigned>(200 * -0.5) = static_cast<unsigned>(-100.0)`, a
conversion whose truncated value is not representable in `unsigned`, i.e.
the undefined branch of [conv.fpint]; likewise for every channel of the gray
color 0x808080 that the header actually darkens for the debug style.  The
claimed deterministic 100 only arises from the modulo-2^32 wraparound some
targets happen to produce; others (AArch64 saturating conversion) yield 0,
i.e. no darkening at all. -/
theorem lighter_negative_percents_hits_undefined_cast :
    lighter_channel 200 (-1/2 : ℚ) = none ∧ lighter 0x808080 (-1/2 : ℚ) = none := by
  constructor
  · simp [lighter_channel, truncQ_200, castToUnsigned]
  · have h : to_rgb 0x808080 = ⟨128, 128, 128⟩ := by decide
    simp [lighter, h, lighter_channel, truncQ_128, castToUnsigned]

/-- C5 counterexample: a suppressed call that is the first call of the
process still runs the one-time environment resolution, so the global state
changes (here from default warning with the guard clear, to error with the
guard set) even though zero bytes are written; the call severity debug is
strictly less urgent than both the old and the new threshold. -/
theorem suppressed_first_call_mutates_state_cex :
    log_impl envLogError .debug 1 "f.c" "m" "x" 0 ⟨.warning, 0, false⟩
      = some (⟨.error, 0, true⟩, "")
    ∧ (⟨.error, 0, true⟩ : LogState) ≠ ⟨.warning, 0, false⟩
    ∧ log_level_ord .warning < log_level_ord .debug
    ∧ log_level_ord .error < log_level_ord .debug := by
  refine ⟨by decide, by decide, by decide, by decide⟩

/-- C5 amended: a call whose severity is strictly less urgent than the
threshold in force after the one-time resolution writes zero bytes and does
no formatting work (the conclusion holds for every `file`, including the
empty string on which `strip_fpath` would be undefined, because
`strip_fpath` is never evaluated on the suppressed path); the epoch is
never modified, and when the call is not the first one the whole global
state is left unchanged. -/
theorem suppressed_call_no_output :
    ∀ (env : Env) (level : log_level_t) (line : Int) (file module_name msg : String)
      (now : Nat) (s : LogState),
      log_level_ord (resolveState env s).g_current_level < log_level_ord level →
      log_impl env level line file module_name msg now s = some (resolveState env s, "")
      ∧ (resolveState env s).g_local_epooch = s.g_local_epooch
      ∧ (s.log_level_read = true → resolveState env s = s) := by
  intro env level line file module_name msg now s h
  exact ⟨log_impl_suppress env level line file module_name msg now s h,
    resolveState_epoch env s, fun hr => resolveState_read hr⟩

/-- Witness for C5 amended: a suppressed non-first call with an empty file
name writes nothing and leaves the state unchanged. -/
theorem suppressed_call_no_output_witness :
    log_level_ord (resolveState env0 ⟨.warning, 7, true⟩).g_current_level
      < log_level_ord .debug
    ∧ (log_impl env0 .debug 1 "" "m" "x" 9 ⟨.warning, 7, true⟩
        = some (resolveState env0 ⟨.warning, 7, true⟩, "")
       ∧ (resolveState env0 ⟨.warning, 7, true⟩).g_local_epooch
          = (⟨.warning, 7, true⟩ : LogState).g_local_epooch
       ∧ ((⟨.warning, 7, true⟩ : LogState).log_level_read = true →
          resolveState env0 ⟨.warning, 7, true⟩ = ⟨.warning, 7, true⟩)) :=
  ⟨by decide,
    suppressed_call_no_output env0 .debug 1 "" "m" "x" 9 ⟨.warning, 7, true⟩ (by decide)⟩

/-- C6: after any completed call the guard is set, and a call that starts
with the guard set leaves the global state entirely unchanged — so the
threshold never changes after the first call.  The second conjunct covers
the per-template-instantiation copies of the C++ `static` guard: re-running
the resolution against the same environment is idempotent, so even a later
re-resolution (by a different instantiation of `log_impl`) cannot change
the threshold. -/
theorem threshold_resolution_at_most_once :
    (∀ (env : Env) (level : log_level_t) (line : Int) (file module_name msg : String)
        (now : Nat) (s s' : LogState) (out : String),
        log_impl env level line file module_name msg now s = some (s', out) →
        s'.log_level_read = true ∧ (s.log_level_read = true → s' = s))
    ∧ (∀ (env : Env) (cur : log_level_t),
        readLogLevel env (readLogLevel env cur) = readLogLevel env cur) := by
  constructor
  · intro env level line file module_name msg now s s' out h
    have hs : s' = resolveState env s := log_impl_state_eq h
    subst hs
    exact ⟨resolveState_read_flag env s, fun hr => resolveState_read hr⟩
  · intro env cur
    rcases hl : env "LOG" with _ | v
    · rcases hd : env "DEBUG" with _ | w
      · simp [readLogLevel, hl, hd]
      · simp [readLogLevel, hl, hd]
    · by_cases h1 : v = "debug"
      · simp [readLogLevel, hl, h1]
      · by_cases h2 : v = "info"
        · simp [readLogLevel, hl, h1, h2]
        · by_cases h3 : v = "warning"
          · simp [readLogLevel, hl, h1, h2, h3]
          · by_cases h4 : v = "error"
            · simp [readLogLevel, hl, h1, h2, h3, h4]
            · simp [readLogLevel, hl, h1, h2, h3, h4]

/-- Witness for C6 at a concrete suppressed call with the guard already set. -/
theorem threshold_resolution_at_most_once_witness :
    ((⟨.error, 0, true⟩ : LogState).log_level_read = true
      ∧ ((⟨.error, 0, true⟩ : LogState).log_level_read = true →
          (⟨.error, 0, true⟩ : LogState) = ⟨.error, 0, true⟩))
    ∧ readLogLevel env0 (readLogLevel env0 .warning) = readLogLevel env0 .warning :=
  ⟨threshold_resolution_at_most_once.1 env0 .debug 1 "f.c" "m" "x" 0
      ⟨.error, 0, true⟩ ⟨.error, 0, true⟩ "" (by decide),
    threshold_resolution_at_most_once.2 env0 .warning⟩

/-- C7: `log_empty_line` writes exactly one newline character to stderr,
for every global state (in particular whatever the threshold is, including
one that suppresses every severity), and leaves the state untouched. -/
theorem log_empty_line_always_single_newline :
    ∀ s : LogState, (log_empty_line s).2 = "\n" ∧ (log_empty_line s).2.length = 1
      ∧ (log_empty_line s).1 = s := by
  intro s
  exact ⟨rfl, rfl, rfl⟩

/-- C8 counterexample: at 5 elapsed milliseconds the emitted line is
`5   : INF  ...` — the `:<4` left-justification pads with spaces before the
colon, so the line does not match the spec's regex
`^\d+: INF  net  connected to host1 \(server\.cpp:42\) $`. -/
theorem info_line_small_ms_fails_spec_regex_cex :
    log_impl env0 .info 42 "/a/b/server.cpp" "net" "connected to host1" 5 ⟨.info, 0, true⟩
      = some (⟨.info, 0, true⟩, "5   : INF  net  connected to host1 (server.cpp:42) \n")
    ∧ matchesSpecRegex "5   : INF  net  connected to host1 (server.cpp:42) \n" = false := by
  refine ⟨by decide, by decide⟩

/-- C8 amended: every emitted line has the exact shape
`<ms, min width 4, left-justified>: <TAG>  <module>  <msg> (<basename>:<line>) `
followed by a newline; the spec's end-to-end info example holds verbatim,
and its regex matches once the elapsed value fills the 4-character field
(e.g. at 1234 ms). -/
theorem emitted_line_exact_shape :
    (∀ (env : Env) (level T : log_level_t) (line : Int) (file module_name msg : String)
        (now ep : Nat) (base : String),
        strip_fpath file = some base →
        log_level_ord level ≤ log_level_ord T →
        log_impl env level line file module_name msg now ⟨T, ep, true⟩
          = some (⟨T, ep, true⟩,
              padRight4 (toString (now - ep)) ++ ": " ++ lvl_s level ++ "  " ++ module_name
                ++ "  " ++ msg ++ " (" ++ base ++ ":" ++ toString line ++ ") " ++ "\n"))
    ∧ log_impl env0 .info 42 "/a/b/server.cpp" "net" "connected to host1" 1234 ⟨.info, 0, true⟩
        = some (⟨.info, 0, true⟩, "1234: INF  net  connected to host1 (server.cpp:42) \n")
    ∧ matchesSpecRegex "1234: INF  net  connected to host1 (server.cpp:42) \n" = true := by
  refine ⟨?_, by decide, by decide⟩
  intro env level T line file module_name msg now ep base hstrip hord
  have h := log_impl_emit env level T line file module_name msg now ep base hstrip hord
  simpa [formatLine] using h

/-- Witness for C8 amended at a concrete call (5 elapsed milliseconds). -/
theorem emitted_line_exact_shape_witness :
    strip_fpath "/a/b/server.cpp" = some "server.cpp"
    ∧ log_level_ord .info ≤ log_level_ord .info
    ∧ log_impl env0 .info 42 "/a/b/server.cpp" "net" "connected to host1" 5 ⟨.info, 0, true⟩
        = some (⟨.info, 0, true⟩,
            padRight4 (toString (5 - 0)) ++ ": " ++ lvl_s .info ++ "  " ++ "net"
              ++ "  " ++ "connected to host1" ++ " (" ++ "server.cpp" ++ ":"
              ++ toString (42 : Int) ++ ") " ++ "\n") :=
  ⟨by decide, by decide,
    emitted_line_exact_shape.1 env0 .info .info 42 "/a/b/server.cpp" "net"
      "connected to host1" 5 0 "server.cpp" (by decide) (by decide)⟩

/-- C9: on a length-0 input, `strip_fpath` reaches the error branch of its
prefix removal (`remove_prefix(1)` on an empty view), so no input of length 0
has a defined result. -/
theorem strip_fpath_empty_hits_error_branch :
    ∀ s : String, s.length = 0 → strip_fpath s = none := by
  intro s h
  have hd : s.data = [] := List.eq_nil_of_length_eq_zero h
  simp [strip_fpath, hd, last_slash_pos_aux]

/-- Witness for C9 at the concrete empty string. -/
theorem strip_fpath_empty_hits_error_branch_witness :
    ("" : String).length = 0 ∧ strip_fpath "" = none :=
  ⟨by decide, strip_fpath_empty_hits_error_branch "" (by decide)⟩

/-- C10: when `LOG` is absent, mere presence of `DEBUG` — with any value,
including the empty string — forces the resolved threshold to debug. -/
theorem debug_presence_alone_forces_debug :
    ∀ (env : Env) (cur : log_level_t) (v : String),
      env "LOG" = none → env "DEBUG" = some v → readLogLevel env cur = .debug := by
  intro env cur v hlog hdbg
  simp [readLogLevel, hlog, hdbg]

/-- Witness for C10: `DEBUG` present with the empty value, `LOG` absent. -/
theorem debug_presence_alone_forces_debug_witness :
    envDebugEmpty "LOG" = none ∧ envDebugEmpty "DEBUG" = some ""
      ∧ readLogLevel envDebugEmpty .warning = .debug :=
  ⟨by decide, by decide,
    debug_presence_alone_forces_debug envDebugEmpty .warning "" (by decide) (by decide)⟩

end LogHpp
